import Mathlib

/-!
Shallow embedding of the `clickhouse_vs_vertica` benchmarking utility
(src/main.py, src/models.py, src/config/settings.py) and proofs of the
specification claims about it.

Modelling conventions:
* timestamps are integers (seconds since the epoch, `datetime` granularity);
* UUIDs are natural numbers (`uuid4()` draws a fresh one from a source);
* the random module is an oracle `Rand` of choice streams, one entry per
  draw site in `generate_events`;
* database clients are modelled by the sequence of statements they are
  asked to execute, plus a failure oracle saying which statements raise;
* python exceptions are `Except`: a function whose body can propagate an
  exception returns `Except e a`, a function that catches everything
  returns a plain value (or `Except` that is provably always `.ok`).
-/

namespace CHVV

/-- Configuration for the column store, from `config/settings.py`
(`ClickhouseSettings`), defaults included. -/
structure ClickhouseSettings where
  host : String := "clickhouse-node1"
  port : Nat := 8123
  database : String := "example"
  user : String := "default"
  password : String := ""
  table : String := "events"
deriving DecidableEq, Repr

/-- Configuration for the row store, from `config/settings.py`
(`VerticaSettings`), defaults included. -/
structure VerticaSettings where
  host : String := "vertica"
  port : Nat := 5433
  database : String := "docker"
  user : String := "dbadmin"
  password : String := ""
  vertica_schema : String := "public"
  table : String := "events"
deriving DecidableEq, Repr

/-- The domain record, from `models.py` (`class Event`): four fields in
declaration order, the last two optional with default `None`. -/
structure Event where
  event_type : String
  timestamp : Int
  user_id : Option Nat := none
  url : Option String := none
deriving DecidableEq, Repr

/-- The fixed category set passed to `random.choice` for `event_type`
in `generate_events`. -/
def eventTypes : List String := ["click", "view", "purchase"]

/-- The fixed sample set passed to `random.choice` for `url`
in `generate_events` (a null option included). -/
def sampleUrls : List (Option String) := [some "http://example.com", some "http://test.com", none]

/-- Seconds in a day: `timedelta(days=k)` is `86400 * k` seconds. -/
def daySeconds : Int := 86400

/-- Oracle for the `random` module: one stream per draw site of
`generate_events`, indexed by the iteration. `random.choice` over a
3-element list yields an index below 3, `random.randint(0, 10)` yields a
value in `[0, 10]`, `random.random() > 0.5` is a coin, `uuid4()` draws a
fresh identifier. -/
structure Rand where
  etChoice : Nat → Fin 3
  days : Nat → Fin 11
  coin : Nat → Bool
  uuid : Nat → Nat
  urlChoice : Nat → Fin 3

/-- One event of `generate_events` (`src/main.py` lines 133-142): the body
of the list comprehension at iteration `i`, with `now` the clock reading. -/
def generateOne (r : Rand) (now : Int) (i : Nat) : Event :=
  { event_type := eventTypes.get ⟨(r.etChoice i).val, (r.etChoice i).isLt⟩
    timestamp := now - daySeconds * ((r.days i).val : Int)
    user_id := if r.coin i then some (r.uuid i) else none
    url := sampleUrls.get ⟨(r.urlChoice i).val, (r.urlChoice i).isLt⟩ }

/-- Embedding of `generate_events(num_events)` (`src/main.py`): a list comprehension of
`num_events` freshly drawn events, in iteration order. -/
def generate_events (r : Rand) (now : Int) (num_events : Nat) : List Event :=
  (List.range num_events).map (generateOne r now)

/-- A cell value carried by an insert statement: the python values that end
up in a row tuple (strings, datetimes, UUIDs, None). -/
inductive Value
  | str (s : String)
  | time (t : Int)
  | uuid (u : Nat)
  | null
deriving DecidableEq, Repr

/-- Embedding of `list(Event.model_fields.keys())`: the field names of `Event` in
declaration order. -/
def columnNames : List String := ["event_type", "timestamp", "user_id", "url"]

/-- Embedding of `tuple(event.model_dump().values())`: one event as a row tuple, field
values in declaration order. Also the tuple built per event in
`load_data_to_vertica`: `(event.event_type, event.timestamp, event.user_id,
event.url)`. -/
def eventRow (e : Event) : List Value :=
  [Value.str e.event_type, Value.time e.timestamp,
   (match e.user_id with | some u => Value.uuid u | none => Value.null),
   (match e.url with | some u => Value.str u | none => Value.null)]

/-! ### Column-store client -/

/-- A call made on the ClickHouse client: a DDL/utility `command`, a bulk
`insert` (table name, column names, row data) or a `query`. -/
inductive CHOp
  | command (sql : String)
  | insert (table : String) (cols : List String) (data : List (List Value))
  | query (sql : String)
deriving DecidableEq, Repr

/-- Structured view of the DDL/utility statements `init_clickhouse` sends:
each constructor is one of the four f-strings of `src/main.py` lines 28-57,
rendered to SQL text by `renderCmd`. -/
inductive CHCmd
  | createDatabase (db : String)
  | useDb (db : String)
  | dropTable (db tbl : String)
  | createTable (db tbl : String) (cols : List (String × String)) (engine orderBy : String)
deriving DecidableEq, Repr

/-- The fixed four-column schema of the ClickHouse `CREATE TABLE`
statement: column name paired with its declared type. -/
def chSchema : List (String × String) :=
  [("event_type", "String"), ("timestamp", "DateTime64"),
   ("user_id", "UUID NULL"), ("url", "String NULL")]

/-- Renders a column list the way the `CREATE TABLE` f-string spells it. -/
def renderCols (cols : List (String × String)) : String :=
  String.intercalate ", " (cols.map fun c => c.1 ++ " " ++ c.2)

/-- Renders a structured command to the exact SQL text of the source. -/
def renderCmd : CHCmd → String
  | CHCmd.createDatabase db => "CREATE DATABASE IF NOT EXISTS " ++ db
  | CHCmd.useDb db => "USE " ++ db
  | CHCmd.dropTable db tbl => "DROP TABLE IF EXISTS " ++ db ++ "." ++ tbl
  | CHCmd.createTable db tbl cols engine orderBy =>
      "CREATE TABLE IF NOT EXISTS " ++ db ++ "." ++ tbl ++ " (" ++ renderCols cols ++
        ") Engine=" ++ engine ++ " ORDER BY " ++ orderBy

/-- The structured statements of `init_clickhouse`, in source order: create
the database if absent, switch to it, drop the table if it exists,
recreate the table with the fixed four-column schema. -/
def initCmds (s : ClickhouseSettings) : List CHCmd :=
  [ CHCmd.createDatabase s.database,
    CHCmd.useDb s.database,
    CHCmd.dropTable s.database s.table,
    CHCmd.createTable s.database s.table chSchema "MergeTree()" "timestamp" ]

/-- The client calls `init_clickhouse` makes, as rendered SQL commands. -/
def initStmts (s : ClickhouseSettings) : List CHOp :=
  (initCmds s).map (fun c => CHOp.command (renderCmd c))

/-- Abstract state of the ClickHouse server as far as the issued DDL is
concerned: which databases exist, the session's current database, and for
each qualified table name its column schema (`none` when absent). -/
@[ext]
structure CHState where
  databases : String → Bool
  current : Option String
  tables : String → String → Option (List (String × String))

/-- Meaning of one DDL statement on the server state. `IF NOT EXISTS`
creation keeps an existing object; `IF EXISTS` drop removes it when
present and is a no-op otherwise. -/
def applyCmd (st : CHState) : CHCmd → CHState
  | CHCmd.createDatabase db =>
      { st with databases := fun d => if d = db then true else st.databases d }
  | CHCmd.useDb db => { st with current := some db }
  | CHCmd.dropTable db tbl =>
      { st with tables := fun d t =>
          if d = db then (if t = tbl then none else st.tables d t) else st.tables d t }
  | CHCmd.createTable db tbl cols _ _ =>
      { st with tables := fun d t =>
          if d = db then
            (if t = tbl then some ((st.tables db tbl).getD cols) else st.tables d t)
          else st.tables d t }

/-- Meaning of a statement sequence: apply each in order. -/
def applyCmds (st : CHState) (cs : List CHCmd) : CHState :=
  cs.foldl applyCmd st

/-- The server state after a successful `init_clickhouse` run. -/
def applyInit (s : ClickhouseSettings) (st : CHState) : CHState :=
  applyCmds st (initCmds s)

/-- Runs a list of client calls against a failure oracle. Calls are
attempted in order; the first failing call raises after being attempted, so
the error carries the attempted prefix (failing call included) while
success carries the whole list. -/
def runOps (fails : CHOp → Bool) : List CHOp → Except (List CHOp) (List CHOp)
  | [] => Except.ok []
  | c :: cs =>
    if fails c then Except.error [c]
    else
      match runOps fails cs with
      | Except.ok t => Except.ok (c :: t)
      | Except.error t => Except.error (c :: t)

/-- Embedding of `ClickhouseLoader.init_clickhouse`: issues `initStmts` inside a
`try`/`except Exception` that logs and falls through, so the method returns
normally whatever the client does. The result is the list of calls that
were attempted plus whether an error was logged. -/
def init_clickhouse (fails : CHOp → Bool) (s : ClickhouseSettings) :
    Except String (List CHOp × Bool) :=
  match runOps fails (initStmts s) with
  | Except.ok t => Except.ok (t, false)
  | Except.error t => Except.ok (t, true)

/-- Embedding of `ClickhouseLoader.load_batch(event_batch)` (`src/main.py` lines 60-71):
returns immediately on an empty batch; otherwise issues one bulk insert
into the literal table `"example.events"` with the rows of the whole batch,
inside a `try`/`except` that logs and swallows any client error. The
`ClickhouseSettings` argument mirrors `self.settings`, which the method
never consults. -/
def load_batch (fails : CHOp → Bool) (_s : ClickhouseSettings) (event_batch : List Event) :
    Except String (List CHOp × Bool) :=
  if event_batch.isEmpty then Except.ok ([], false)
  else
    match runOps fails [CHOp.insert "example.events" columnNames (event_batch.map eventRow)] with
    | Except.ok t => Except.ok (t, false)
    | Except.error t => Except.ok (t, true)

/-- The query `ClickhouseLoader.read_data` issues: an unbounded scan of the
configured database and table. -/
def readClickhouseSql (s : ClickhouseSettings) : String :=
  "SELECT * FROM " ++ s.database ++ "." ++ s.table

/-! ### Row-store client -/

/-- A call made through a Vertica cursor: `cursor.execute(sql, params)`,
with `params` empty for a plain statement. -/
inductive VOp
  | execute (sql : String) (params : List Value)
deriving DecidableEq, Repr

/-- The hard-coded per-row insert statement of `load_data_to_vertica`. -/
def vertInsertSql : String := "INSERT INTO public.events VALUES (%s, %s, %s, %s)"

/-- The statements `load_data_to_vertica` asks the cursor to execute, in
order (`src/main.py` lines 150-159): one parameterized insert per event, in
sequence order, then a single explicit `COMMIT`. -/
def verticaStmts (events : List Event) : List VOp :=
  events.map (fun e => VOp.execute vertInsertSql (eventRow e)) ++ [VOp.execute "COMMIT" []]

/-- Runs cursor statements against a failure oracle; the function has no
`try`/`except`, so the first failure propagates to the caller, carrying the
attempted prefix. -/
def runVOps (fails : VOp → Bool) : List VOp → Except (List VOp) (List VOp)
  | [] => Except.ok []
  | c :: cs =>
    if fails c then Except.error [c]
    else
      match runVOps fails cs with
      | Except.ok t => Except.ok (c :: t)
      | Except.error t => Except.error (c :: t)

/-- Embedding of `load_data_to_vertica(events, vertica_loader)`: executes `verticaStmts`
on a cursor, with no exception handling of its own. -/
def load_data_to_vertica (fails : VOp → Bool) (events : List Event) :
    Except (List VOp) (List VOp) :=
  runVOps fails (verticaStmts events)

/-- The statement `DatabaseManager.create_vertica_table` issues, on the
configured schema and table. -/
def createVerticaSql (s : VerticaSettings) : String :=
  "CREATE TABLE IF NOT EXISTS " ++ s.vertica_schema ++ "." ++ s.table ++
    " (event_type VARCHAR(255), timestamp TIMESTAMP, user_id UUID NULL, url VARCHAR(255) NULL)"

/-- The query `DatabaseManager.read_data_from_vertica` issues, on the
configured schema and table. -/
def readVerticaSql (s : VerticaSettings) : String :=
  "SELECT * FROM " ++ s.vertica_schema ++ "." ++ s.table

/-- Embedding of `DatabaseManager.connect_to_vertica`: on a failed connection attempt
the caught driver error is logged and the method raises `ConnectionError`;
on success it returns the connection. -/
def connect_to_vertica (fails : Bool) : Except String Unit :=
  if fails then Except.error "ConnectionError" else Except.ok ()

/-! ### Orchestrator -/

/-- Environment of one run of `main`: failure oracles for the two clients
and the two connection attempts, the random oracle, the `datetime.now()`
reading used while generating, and the successive `time.time()` readings
(read `k` of the run is `clock k`). -/
structure World where
  chConnectFails : Bool
  chFails : CHOp → Bool
  vConnectFails : Bool
  vFails : VOp → Bool
  rand : Rand
  now : Int
  clock : Nat → Int

/-- Coarse trace of the orchestrated run, one entry per step `main`
performs, recording whether a fallible step succeeded. -/
inductive Action
  | chConnect (ok : Bool)
  | chInit
  | vConnect (ok : Bool)
  | vCreateTable
  | generate (n : Nat)
  | chWrite
  | vWrite (ok : Bool)
  | chRead (ok : Bool)
  | vRead (ok : Bool)
deriving DecidableEq, Repr

/-- The mapping `main` returns on success: exactly the four duration keys,
in the dictionary's literal order. -/
structure RunResult where
  clickhouse_write_time : Int
  vertica_write_time : Int
  clickhouse_read_time : Int
  vertica_read_time : Int
deriving DecidableEq, Repr

/-- The value `num_events = 1000`, hard-coded in `main`. -/
def numEvents : Nat := 1000

/-- The body of `main` (`src/main.py` lines 162-201), with its top-level
`try`/`except Exception` folded in: any exception escaping a step yields
`none` (the bare `return` of the handler) and stops the run there. Steps in
source order: build the `DatabaseManager` (ClickHouse connect + first
`init_clickhouse`, then `connect_to_vertica`, which may raise), the second
`init_clickhouse` and `create_vertica_table` (both log-and-continue),
`generate_events(1000)`, the timed ClickHouse write (`load_batch` swallows
errors), the timed Vertica write (may raise), the timed ClickHouse read
(may raise), the timed Vertica read (may raise), then the result mapping.
`time.time()` reads are numbered 0-7 in order of occurrence. -/
def mainRun (w : World) (chS : ClickhouseSettings) (vS : VerticaSettings) :
    Option RunResult × List Action :=
  if w.chConnectFails then (none, [Action.chConnect false])
  else
    let a1 := [Action.chConnect true, Action.chInit]
    if w.vConnectFails then (none, a1 ++ [Action.vConnect false])
    else
      let a2 := a1 ++ [Action.vConnect true, Action.chInit, Action.vCreateTable]
      let events := generate_events w.rand w.now numEvents
      let a3 := a2 ++ [Action.generate numEvents]
      let chWriteTime := w.clock 1 - w.clock 0
      let a4 := a3 ++ [Action.chWrite]
      match load_data_to_vertica w.vFails events with
      | Except.error _ => (none, a4 ++ [Action.vWrite false])
      | Except.ok _ =>
        let vWriteTime := w.clock 3 - w.clock 2
        let a5 := a4 ++ [Action.vWrite true]
        if w.chFails (CHOp.query (readClickhouseSql chS)) then (none, a5 ++ [Action.chRead false])
        else
          let chReadTime := w.clock 5 - w.clock 4
          let a6 := a5 ++ [Action.chRead true]
          if w.vFails (VOp.execute (readVerticaSql vS) []) then (none, a6 ++ [Action.vRead false])
          else
            (some { clickhouse_write_time := chWriteTime,
                    vertica_write_time := vWriteTime,
                    clickhouse_read_time := chReadTime,
                    vertica_read_time := w.clock 7 - w.clock 6 },
             a6 ++ [Action.vRead true])

/-! ### State-passing view of the two write paths

The event list is part of the explicit state here, so that the frame
property "loading never mutates the events" is a statement, not a
convention. Each definition mirrors the corresponding source body
statement by statement; neither body contains an assignment to the event
list or to an event's fields. -/

/-- State threaded through `ClickhouseLoader.load_batch`: the caller's
event list, the client calls issued so far, and the logged-error flag. -/
structure CHLoadState where
  events : List Event
  issued : List CHOp
  logged : Bool
deriving DecidableEq, Repr

/-- Embedding of `load_batch` as a state transformer: early return on an empty batch;
otherwise derive the row data by reading each event and issue one bulk
insert, logging (not raising) on failure. -/
def load_batch_st (fails : CHOp → Bool) (st : CHLoadState) : CHLoadState :=
  if st.events.isEmpty then st
  else
    let op := CHOp.insert "example.events" columnNames (st.events.map eventRow)
    { st with issued := st.issued ++ [op], logged := st.logged || fails op }

/-- State threaded through `load_data_to_vertica`: the caller's event list
and the cursor statements issued so far. -/
structure VLoadState where
  events : List Event
  issued : List VOp
deriving DecidableEq, Repr

/-- Embedding of `load_data_to_vertica` as a state transformer: derive the tuples by
reading each event, execute the per-row inserts and the commit; a failing
statement raises, carrying the state as of the raise. -/
def load_vertica_st (fails : VOp → Bool) (st : VLoadState) :
    Except VLoadState VLoadState :=
  match runVOps fails (verticaStmts st.events) with
  | Except.ok t => Except.ok { st with issued := st.issued ++ t }
  | Except.error t => Except.error { st with issued := st.issued ++ t }

/-- The event list in the post-state of a run of `load_vertica_st`,
whether it returned or raised. -/
def postEvents : Except VLoadState VLoadState → List Event
  | Except.ok st => st.events
  | Except.error st => st.events

/-! ### Concrete sample inputs (used to instantiate proved properties) -/

/-- A concrete random oracle: every draw takes the first option. -/
def rZero : Rand :=
  { etChoice := fun _ => 0, days := fun _ => 0, coin := fun _ => false,
    uuid := fun _ => 0, urlChoice := fun _ => 0 }

/-- A concrete event. -/
def ev0 : Event := { event_type := "click", timestamp := 0 }

/-- A ClickHouse failure oracle under which every call succeeds. -/
def fCHFalse : CHOp → Bool := fun _ => false

/-- A Vertica failure oracle under which every statement succeeds. -/
def fVFalse : VOp → Bool := fun _ => false

/-- The default column-store settings. -/
def sCh : ClickhouseSettings := {}

/-- The default row-store settings. -/
def sV : VerticaSettings := {}

/-- Column-store settings with a non-default database name. -/
def sCh2 : ClickhouseSettings := { database := "mydb" }

/-- A fault-free world with a constant clock. -/
def wOk : World :=
  { chConnectFails := false, chFails := fCHFalse, vConnectFails := false,
    vFails := fVFalse, rand := rZero, now := 0, clock := fun _ => 0 }

/-- The fault-free world, except the Vertica connection attempt fails. -/
def wBadV : World := { wOk with vConnectFails := true }

/-- The timing mapping produced by a run under the constant clock. -/
def rOk : RunResult :=
  { clickhouse_write_time := 0, vertica_write_time := 0,
    clickhouse_read_time := 0, vertica_read_time := 0 }

/-- The coarse trace of a fault-free run. -/
def trOk : List Action :=
  [Action.chConnect true, Action.chInit, Action.vConnect true, Action.chInit,
   Action.vCreateTable, Action.generate numEvents, Action.chWrite,
   Action.vWrite true, Action.chRead true, Action.vRead true]

/-! ### Helper lemmas -/

/-- When no statement fails, a Vertica statement run succeeds and issues
exactly the given statements. -/
lemma runVOps_all_ok (fails : VOp → Bool) (ops : List VOp)
    (h : ∀ op ∈ ops, fails op = false) : runVOps fails ops = Except.ok ops := by
  induction ops with
  | nil => rfl
  | cons c cs ih =>
    have hc := h c (List.mem_cons_self c cs)
    have hcs := ih (fun op hop => h op (List.mem_cons_of_mem c hop))
    simp [runVOps, hc, hcs]

/-- Splitting a character list at a separator that occurs in neither left
part is unambiguous. -/
lemma splitAtDot : ∀ (l1 m1 l2 m2 : List Char), ('.' : Char) ∉ l1 → ('.' : Char) ∉ m1 →
    l1 ++ '.' :: l2 = m1 ++ '.' :: m2 → l1 = m1 ∧ l2 = m2 := by
  intro l1
  induction l1 with
  | nil =>
    intro m1 l2 m2 _ hm h
    cases m1 with
    | nil => simpa using h
    | cons c m1 =>
      simp only [List.nil_append, List.cons_append, List.cons.injEq] at h
      cases h.1
      exact absurd (List.mem_cons_self _ _) hm
  | cons a l1 ih =>
    intro m1 l2 m2 hl hm h
    have ha : a ≠ '.' := fun hEq => hl (hEq ▸ List.mem_cons_self a l1)
    have hl' : ('.' : Char) ∉ l1 := fun hmem => hl (List.mem_cons_of_mem a hmem)
    cases m1 with
    | nil =>
      simp only [List.cons_append, List.nil_append, List.cons.injEq] at h
      exact absurd h.1 ha
    | cons c m1 =>
      simp only [List.cons_append, List.cons.injEq] at h
      have hm' : ('.' : Char) ∉ m1 := fun hmem => hm (List.mem_cons_of_mem c hmem)
      obtain ⟨e1, e2⟩ := ih m1 l2 m2 hl' hm' h.2
      exact ⟨by rw [h.1, e1], e2⟩

/-- Joining two names with a dot is injective when the target's two parts
are dot-free: `a ++ "." ++ b = c ++ "." ++ d` forces `a = c` and `b = d`. -/
lemma dot_join_inj (a b c d : String) (hc : ('.' : Char) ∉ c.data)
    (hd : ('.' : Char) ∉ d.data) (h : a ++ "." ++ b = c ++ "." ++ d) :
    a = c ∧ b = d := by
  have hdot : (".").data = ['.'] := rfl
  have hdata : a.data ++ '.' :: b.data = c.data ++ '.' :: d.data := by
    have h2 := congrArg String.data h
    simpa [String.data_append, hdot] using h2
  have hcnt := congrArg (List.count '.') hdata
  simp [List.count_append, List.count_cons] at hcnt
  have hc0 : List.count '.' c.data = 0 := List.count_eq_zero.mpr hc
  have hd0 : List.count '.' d.data = 0 := List.count_eq_zero.mpr hd
  have ha0 : ('.' : Char) ∉ a.data := List.count_eq_zero.mp (by omega)
  obtain ⟨e1, e2⟩ := splitAtDot a.data c.data b.data d.data ha0 hc hdata
  exact ⟨String.ext e1, String.ext e2⟩

/-! ### Claim theorems -/

/-- C1: for every `count ≥ 0`, `generate_events(count)` returns exactly
`count` events in iteration order, each with an `event_type` drawn from
the fixed non-empty category set, a timestamp equal to now minus an
integer number of days in `[0, 10]`, a `user_id` that is absent or a fresh
identifier, and a `url` drawn from the fixed sample set (null included). -/
theorem generate_events_spec (r : Rand) (now : Int) (count : Nat) :
    (generate_events r now count).length = count ∧
    (∀ i (h : i < count),
      (generate_events r now count).get ⟨i, by simpa [generate_events] using h⟩ =
        generateOne r now i) ∧
    ∀ e ∈ generate_events r now count,
      e.event_type ∈ eventTypes ∧ e.event_type ≠ "" ∧
      (∃ d : Nat, d ≤ 10 ∧ e.timestamp = now - daySeconds * (d : Int)) ∧
      (e.user_id = none ∨ ∃ u, e.user_id = some u) ∧
      e.url ∈ sampleUrls := by
  refine ⟨by simp [generate_events], ?_, ?_⟩
  · intro i h
    simp [generate_events]
  · intro e he
    simp only [generate_events, List.mem_map, List.mem_range] at he
    obtain ⟨i, _, rfl⟩ := he
    refine ⟨List.get_mem _ _ _, ?_, ?_, ?_, List.get_mem _ _ _⟩
    · have hmem : (generateOne r now i).event_type ∈ eventTypes := List.get_mem _ _ _
      have hall : ∀ s ∈ eventTypes, s ≠ "" := by decide
      exact hall _ hmem
    · exact ⟨(r.days i).val, Nat.lt_succ_iff.mp (r.days i).isLt, rfl⟩
    · by_cases hc : r.coin i
      · exact Or.inr ⟨r.uuid i, by simp [generateOne, hc]⟩
      · exact Or.inl (by simp [generateOne, hc])

/-- Witness for C1, at the zero oracle, `now = 0` and `count = 2`. -/
theorem generate_events_spec_witness :
    (generate_events rZero 0 2).length = 2 ∧
    ((generateOne rZero 0 0).event_type ∈ eventTypes ∧
      (generateOne rZero 0 0).event_type ≠ "" ∧
      (∃ d : Nat, d ≤ 10 ∧ (generateOne rZero 0 0).timestamp = 0 - daySeconds * (d : Int)) ∧
      ((generateOne rZero 0 0).user_id = none ∨ ∃ u, (generateOne rZero 0 0).user_id = some u) ∧
      (generateOne rZero 0 0).url ∈ sampleUrls) :=
  ⟨(generate_events_spec rZero 0 2).1,
   (generate_events_spec rZero 0 2).2.2 (generateOne rZero 0 0) (by decide)⟩

/-- C2: for every non-empty event list on which no statement fails, the
row-store write path executes exactly `n` single-row parameterized insert
statements, one per event in sequence order, followed by exactly one
`COMMIT` as the last statement, with no commit among the inserts and each
insert carrying the four field values of exactly one event. -/
theorem vertica_write_per_row (fails : VOp → Bool) (events : List Event)
    (hne : events ≠ [])
    (hok : ∀ op ∈ verticaStmts events, fails op = false) :
    load_data_to_vertica fails events = Except.ok (verticaStmts events) ∧
    (verticaStmts events).take events.length =
      events.map (fun e => VOp.execute vertInsertSql (eventRow e)) ∧
    (verticaStmts events).drop events.length = [VOp.execute "COMMIT" []] ∧
    (verticaStmts events).length = events.length + 1 ∧
    ∀ op ∈ (verticaStmts events).take events.length,
      op ≠ VOp.execute "COMMIT" [] ∧
      ∃ e ∈ events, op = VOp.execute vertInsertSql (eventRow e) ∧ (eventRow e).length = 4 := by
  have hlen : (events.map (fun e => VOp.execute vertInsertSql (eventRow e))).length =
      events.length := List.length_map _ _
  have htake : (verticaStmts events).take events.length =
      events.map (fun e => VOp.execute vertInsertSql (eventRow e)) :=
    List.take_left' hlen
  refine ⟨runVOps_all_ok fails _ hok, htake, List.drop_left' hlen, ?_, ?_⟩
  · simp [verticaStmts]
  · intro op hop
    rw [htake] at hop
    simp only [List.mem_map] at hop
    obtain ⟨e, he, rfl⟩ := hop
    refine ⟨?_, e, he, rfl, rfl⟩
    intro hEq
    have hs : vertInsertSql = "COMMIT" := by injection hEq
    exact absurd hs (by decide)

/-- Witness for C2, on a one-event list under the fault-free oracle. -/
theorem vertica_write_per_row_witness :
    [ev0] ≠ ([] : List Event) ∧
    load_data_to_vertica fVFalse [ev0] = Except.ok (verticaStmts [ev0]) ∧
    (verticaStmts [ev0]).take 1 =
      [ev0].map (fun e => VOp.execute vertInsertSql (eventRow e)) ∧
    (verticaStmts [ev0]).drop 1 = [VOp.execute "COMMIT" []] :=
  have h := vertica_write_per_row fVFalse [ev0] (by decide) (fun op _ => rfl)
  ⟨by decide, h.1, h.2.1, h.2.2.1⟩

/-- C3 counterexample: on the empty event list the row-store write path
still issues a statement — the `COMMIT` — so it does not issue zero
database statements. -/
theorem load_empty_counterexample :
    load_data_to_vertica fVFalse ([] : List Event) =
      Except.ok [VOp.execute "COMMIT" []] ∧
    load_data_to_vertica fVFalse ([] : List Event) ≠ Except.ok [] := by
  constructor
  · rfl
  · intro h
    have := (Except.ok.injEq _ _).mp ((rfl : load_data_to_vertica fVFalse [] =
      Except.ok [VOp.execute "COMMIT" []]) ▸ h)
    simp at this

/-- C3 amended: `ClickhouseLoader.load_batch([])` issues zero statements
and returns normally for every failure oracle; the row-store path on an
empty list issues no insert statements but still executes exactly one
statement, the `COMMIT`. -/
theorem load_empty_amended :
    (∀ (fails : CHOp → Bool) (s : ClickhouseSettings),
      load_batch fails s [] = Except.ok ([], false)) ∧
    verticaStmts ([] : List Event) = [VOp.execute "COMMIT" []] := by
  exact ⟨fun fails s => rfl, rfl⟩

/-- C4: `init_clickhouse` drops the configured table (statement 3) before
recreating it (statement 4) with the fixed four-column schema, so that a
successful run leaves the table with exactly that schema; and under every
failure oracle the method returns normally, with the logged-error flag set
exactly when the client raised. -/
theorem init_clickhouse_spec (s : ClickhouseSettings) (fails : CHOp → Bool)
    (st : CHState) :
    ((initCmds s).get ⟨2, by simp [initCmds]⟩ = CHCmd.dropTable s.database s.table ∧
     (initCmds s).get ⟨3, by simp [initCmds]⟩ =
       CHCmd.createTable s.database s.table chSchema "MergeTree()" "timestamp" ∧
     (2 : Nat) < 3) ∧
    ((applyInit s st).tables s.database s.table = some chSchema ∧
      chSchema.length = 4) ∧
    (∃ t logged, init_clickhouse fails s = Except.ok (t, logged) ∧
      (logged = true ↔ ∃ t2, runOps fails (initStmts s) = Except.error t2)) := by
  refine ⟨⟨rfl, rfl, by omega⟩, ⟨?_, rfl⟩, ?_⟩
  · simp [applyInit, applyCmds, initCmds, applyCmd]
  · cases hr : runOps fails (initStmts s) with
    | ok t =>
      refine ⟨t, false, by simp [init_clickhouse, hr], ?_⟩
      simp [hr]
    | error t =>
      refine ⟨t, true, by simp [init_clickhouse, hr], ?_⟩
      simp [hr]

/-- C5: when the row-store connection attempt fails, `connect_to_vertica`
raises a connection error and the orchestrated run produces no timing
result; `generate_events` is never reached, so no generation step appears
in the run's trace. -/
theorem vertica_connect_failure_aborts (w : World) (chS : ClickhouseSettings)
    (vS : VerticaSettings) (h : w.vConnectFails = true) :
    connect_to_vertica w.vConnectFails = Except.error "ConnectionError" ∧
    (mainRun w chS vS).1 = none ∧
    ∀ n, Action.generate n ∉ (mainRun w chS vS).2 := by
  refine ⟨by simp [connect_to_vertica, h], ?_, ?_⟩
  · by_cases h1 : w.chConnectFails <;> simp [mainRun, h1, h]
  · intro n
    by_cases h1 : w.chConnectFails <;> simp [mainRun, h1, h]

/-- Witness for C5, in the world whose Vertica connection fails. -/
theorem vertica_connect_failure_aborts_witness :
    wBadV.vConnectFails = true ∧
    connect_to_vertica wBadV.vConnectFails = Except.error "ConnectionError" ∧
    (mainRun wBadV sCh sV).1 = none ∧
    Action.generate 1000 ∉ (mainRun wBadV sCh sV).2 :=
  have h := vertica_connect_failure_aborts wBadV sCh sV rfl
  ⟨rfl, h.1, h.2.1, h.2.2 1000⟩

/-- C6: whenever the orchestrated run completes without an unhandled
exception — `mainRun` returns `some` mapping — the mapping has exactly the
four duration fields (the type `RunResult`), and under a monotone clock
each duration is non-negative. -/
theorem main_result_nonneg (w : World) (chS : ClickhouseSettings)
    (vS : VerticaSettings) (r : RunResult) (tr : List Action)
    (hmono : ∀ i j : Nat, i ≤ j → w.clock i ≤ w.clock j)
    (h : mainRun w chS vS = (some r, tr)) :
    0 ≤ r.clickhouse_write_time ∧ 0 ≤ r.vertica_write_time ∧
    0 ≤ r.clickhouse_read_time ∧ 0 ≤ r.vertica_read_time := by
  by_cases h1 : w.chConnectFails
  · simp [mainRun, h1] at h
  by_cases h2 : w.vConnectFails
  · simp [mainRun, h1, h2] at h
  cases hv : load_data_to_vertica w.vFails (generate_events w.rand w.now numEvents) with
  | error t => simp [mainRun, h1, h2, hv] at h
  | ok t =>
    by_cases h3 : w.chFails (CHOp.query (readClickhouseSql chS))
    · simp [mainRun, h1, h2, hv, h3] at h
    by_cases h4 : w.vFails (VOp.execute (readVerticaSql vS) [])
    · simp [mainRun, h1, h2, hv, h3, h4] at h
    simp [mainRun, h1, h2, hv, h3, h4] at h
    obtain ⟨hr, -⟩ := h
    rw [← hr]
    refine ⟨?_, ?_, ?_, ?_⟩ <;>
      exact Int.sub_nonneg.mpr (hmono _ _ (by omega))

/-- Witness for C6, in the fault-free world with the constant clock. -/
theorem main_result_nonneg_witness :
    mainRun wOk sCh sV = (some rOk, trOk) ∧
    (0 ≤ rOk.clickhouse_write_time ∧ 0 ≤ rOk.vertica_write_time ∧
     0 ≤ rOk.clickhouse_read_time ∧ 0 ≤ rOk.vertica_read_time) := by
  have hmono : ∀ i j : Nat, i ≤ j → wOk.clock i ≤ wOk.clock j :=
    fun i j _ => le_refl 0
  have hv : load_data_to_vertica fVFalse (generate_events rZero 0 numEvents) =
      Except.ok (verticaStmts (generate_events rZero 0 numEvents)) :=
    runVOps_all_ok _ _ (fun op _ => rfl)
  have hrun : mainRun wOk sCh sV = (some rOk, trOk) := by
    simp [mainRun, hv, wOk, fCHFalse, rOk, trOk]
    rfl
  exact ⟨hrun, main_result_nonneg wOk sCh sV rOk trOk hmono hrun⟩

/-- C7: every insert statement the row-store write path issues targets the
literal `public.events` — the SQL text is one fixed string with no
configuration in it — while table creation and the read query interpolate
the configured schema and table; any configuration other than
(`public`, `events`) therefore names a different table than the one the
inserts write to. -/
theorem vertica_insert_target_fixed (s : VerticaSettings) (events : List Event)
    (op : VOp) (hop : op ∈ verticaStmts events)
    (hne : op ≠ VOp.execute "COMMIT" []) :
    (∃ p, op = VOp.execute
      ("INSERT INTO " ++ "public.events" ++ " VALUES (%s, %s, %s, %s)") p) ∧
    createVerticaSql s =
      "CREATE TABLE IF NOT EXISTS " ++ (s.vertica_schema ++ "." ++ s.table) ++
      " (event_type VARCHAR(255), timestamp TIMESTAMP, user_id UUID NULL, url VARCHAR(255) NULL)" ∧
    readVerticaSql s = "SELECT * FROM " ++ (s.vertica_schema ++ "." ++ s.table) ∧
    ((s.vertica_schema, s.table) ≠ ("public", "events") →
      s.vertica_schema ++ "." ++ s.table ≠ "public.events") := by
  refine ⟨?_, by simp [createVerticaSql, String.append_assoc],
    by simp [readClickhouseSql, readVerticaSql, String.append_assoc], ?_⟩
  · have hop2 : (∃ e ∈ events, VOp.execute vertInsertSql (eventRow e) = op) ∨
        op = VOp.execute "COMMIT" [] := by simpa [verticaStmts] using hop
    rcases hop2 with ⟨e, _, heq⟩ | hmem
    · refine ⟨eventRow e, ?_⟩
      rw [← heq]
      congr 1
    · exact absurd hmem hne
  · intro hcfg heq
    have h2 := dot_join_inj s.vertica_schema s.table "public" "events"
      (by decide) (by decide) (heq.trans (by decide))
    exact hcfg (by rw [h2.1, h2.2])

/-- Witness for C7, on the insert produced by a one-event list under the
default settings. -/
theorem vertica_insert_target_fixed_witness :
    VOp.execute vertInsertSql (eventRow ev0) ∈ verticaStmts [ev0] ∧
    VOp.execute vertInsertSql (eventRow ev0) ≠ VOp.execute "COMMIT" [] ∧
    (∃ p, VOp.execute vertInsertSql (eventRow ev0) = VOp.execute
      ("INSERT INTO " ++ "public.events" ++ " VALUES (%s, %s, %s, %s)") p) :=
  ⟨by decide, by decide,
   (vertica_insert_target_fixed sV [ev0] (VOp.execute vertInsertSql (eventRow ev0))
     (by decide) (by decide)).1⟩

/-- Normal form of the server state after one successful
`init_clickhouse`: the database exists, the session points at it, and the
configured table carries exactly the fixed schema; everything else is
untouched. -/
lemma applyInit_eq (s : ClickhouseSettings) (st : CHState) :
    applyInit s st =
      { databases := fun d => if d = s.database then true else st.databases d,
        current := some s.database,
        tables := fun d t =>
          if d = s.database then
            (if t = s.table then some chSchema else st.tables d t)
          else st.tables d t } := by
  refine CHState.ext ?_ ?_ ?_
  · rfl
  · rfl
  · funext d t
    simp only [applyInit, applyCmds, initCmds, List.foldl, applyCmd]
    by_cases hd : d = s.database <;> by_cases ht : t = s.table <;> simp [hd, ht]

/-- C8: running `init_clickhouse` twice in sequence leaves the server in
the same state as running it once, from every starting state — the
drop-then-create sequence with fixed DDL is deterministic and idempotent. -/
theorem init_clickhouse_idempotent (s : ClickhouseSettings) (st : CHState) :
    applyInit s (applyInit s st) = applyInit s st := by
  simp only [applyInit_eq]
  refine CHState.ext ?_ rfl ?_
  · funext d
    by_cases hd : d = s.database <;> simp [hd]
  · funext d t
    by_cases hd : d = s.database <;> by_cases ht : t = s.table <;> simp [hd, ht]

/-- C9: neither write path mutates the events passed in: the event list in
the post-state of `load_batch` and of `load_data_to_vertica` (whether the
latter returns or raises) is the caller's list, unchanged. -/
theorem loaders_do_not_mutate_events (fails1 : CHOp → Bool) (fails2 : VOp → Bool)
    (st1 : CHLoadState) (st2 : VLoadState) :
    (load_batch_st fails1 st1).events = st1.events ∧
    postEvents (load_vertica_st fails2 st2) = st2.events := by
  constructor
  · unfold load_batch_st
    by_cases h : st1.events.isEmpty <;> simp [h]
  · unfold load_vertica_st postEvents
    cases hr : runVOps fails2 (verticaStmts st2.events) <;> simp

/-- C10: `load_batch` inserts into the literal table `example.events` for
every configuration — settings never reach the insert call — while
`init_clickhouse` and `read_data` interpolate the configured database and
table; any configuration other than (`example`, `events`) therefore
provisions and reads a different table than the one the batch writes to. -/
theorem clickhouse_insert_target_fixed (s : ClickhouseSettings)
    (fails : CHOp → Bool) (events : List Event) (hne : events ≠ []) :
    (∃ b, load_batch fails s events = Except.ok
        ([CHOp.insert "example.events" columnNames (events.map eventRow)], b)) ∧
    readClickhouseSql s = "SELECT * FROM " ++ (s.database ++ "." ++ s.table) ∧
    (initCmds s).get ⟨3, by simp [initCmds]⟩ =
      CHCmd.createTable s.database s.table chSchema "MergeTree()" "timestamp" ∧
    ((s.database, s.table) ≠ ("example", "events") →
      s.database ++ "." ++ s.table ≠ "example.events") := by
  refine ⟨?_, by simp [readClickhouseSql, String.append_assoc], rfl, ?_⟩
  · have hemp : events.isEmpty = false := by
      cases events with
      | nil => exact absurd rfl hne
      | cons a l => rfl
    by_cases hf : fails (CHOp.insert "example.events" columnNames (events.map eventRow))
    · exact ⟨true, by simp [load_batch, hemp, runOps, hf]⟩
    · exact ⟨false, by simp [load_batch, hemp, runOps, hf]⟩
  · intro hcfg heq
    have h2 := dot_join_inj s.database s.table "example" "events"
      (by decide) (by decide) (heq.trans (by decide))
    exact hcfg (by rw [h2.1, h2.2])

/-- Witness for C10, under a non-default database name. -/
theorem clickhouse_insert_target_fixed_witness :
    [ev0] ≠ ([] : List Event) ∧
    (sCh2.database, sCh2.table) ≠ ("example", "events") ∧
    (∃ b, load_batch fCHFalse sCh2 [ev0] = Except.ok
        ([CHOp.insert "example.events" columnNames ([ev0].map eventRow)], b)) ∧
    sCh2.database ++ "." ++ sCh2.table ≠ "example.events" :=
  have h := clickhouse_insert_target_fixed sCh2 fCHFalse [ev0] (by decide)
  ⟨by decide, by decide, h.1, h.2.2.2 (by decide)⟩

end CHVV
